import Mathlib

/-!
# Verification of the ApiQlient dispatch/lifecycle core

Shallow embedding of the ApiQlient HTTP client (files `apiqlient/router.py`
and `apiqlient/application.py`).  Pure data is translated to Lean structures;
Python exceptions are modelled with `Except`; the route-pattern matching that
the code delegates to the external `starlette` library is modelled as an
oracle function parameter; the external deserialization libraries
(`dataclass_wizard`, `pydantic`, `munch`) are modelled by availability flags
plus abstract construction functions carried by the handler.

The endpoint (handler) type is an abstract type parameter `ε` throughout, and
the transport response body / parsed value types are parameters `δ` / `ν`.
-/

namespace ApiQlientModel

/-- A Python exception: its type (class name) and message. -/
structure Exc where
  kind : String
  msg : String
deriving DecidableEq, Repr

/-- An exception as raised: the exception itself plus the `from` cause
(`raise E(...) from exc`), when the raising site sets one. -/
abbrev Raised := Exc × Option Exc

/-- `router.py` — `ClientRoute`: a declared route.  `starlette.Route` derives
`name` from the endpoint's `__name__`; the name only appears in one error
message, so it is modelled by the fixed placeholder used by `getattr(r, "name",
"unknown")` in `include_router`. -/
structure ClientRoute (ε : Type) where
  path : String
  endpoint : ε
  methods : List String
  list_of : Bool
deriving DecidableEq, Repr

/-- `router.py` — `ClientRouter`: an ordered route table with a path prefix
(the Python attribute `self.prefix`, named `pfx` here). -/
structure ClientRouter (ε : Type) where
  pfx : String
  routes : List (ClientRoute ε)
deriving DecidableEq, Repr

/-- Python `str.startswith`, on the character sequence. -/
def pyStartsWith (s pat : String) : Bool :=
  pat.toList.isPrefixOf s.toList

/-- Python `str.endswith`, on the character sequence. -/
def pyEndsWith (s pat : String) : Bool :=
  pat.toList.isSuffixOf s.toList

/-- `ClientRouter.add_client_route`: append one `ClientRoute` whose stored path
is the router's own prefix concatenated with the given path. -/
def ClientRouter.add_client_route (self : ClientRouter ε) (path : String)
    (endpoint : ε) (methods : List String) (list_of : Bool) : ClientRouter ε :=
  { self with
    routes := self.routes ++
      [{ path := self.pfx ++ path, endpoint := endpoint,
         methods := methods, list_of := list_of }] }

/-- `ClientRouter.include_router`: validate the prefix, then merge every route
of `router` into `self`.  A failed `assert` raises `AssertionError`; the
empty-prefix branch raises `ValueError` when some source route has an empty
path.  All routes created by this repository are `ClientRoute`s, so only the
`isinstance(route, ClientRoute)` merge branch is modelled. -/
def ClientRouter.include_router (self : ClientRouter ε) (router : ClientRouter ε)
    ( px : String) : Except Exc (ClientRouter ε) :=
  if px ≠ "" then
    if ¬ pyStartsWith px "/" then
      .error ⟨"AssertionError", "A path prefix must start with '/'"⟩
    else if pyEndsWith px "/" then
      .error ⟨"AssertionError",
        "A path prefix must not end with '/', as the routes will start with '/'"⟩
    else
      .ok (router.routes.foldl
        (fun acc route =>
          acc.add_client_route (px ++ route.path) route.endpoint
            route.methods route.list_of)
        self)
  else if router.routes.any (fun r => r.path = "") then
    .error ⟨"ValueError",
      "Prefix and path cannot be both empty (path operation: unknown)"⟩
  else
    .ok (router.routes.foldl
      (fun acc route =>
        acc.add_client_route (px ++ route.path) route.endpoint
          route.methods route.list_of)
      self)

/-- `ClientRouter.client_route`: returns a decorator; applying the decorator to
`func` appends the route and returns `func` itself.  Decorator application is
modelled as producing the updated router together with the returned object. -/
def ClientRouter.client_route (self : ClientRouter ε) (path : String)
    (methods : List String) (list_of : Bool) (func : ε) : ClientRouter ε × ε :=
  (self.add_client_route path func methods list_of, func)

/-- `ClientRouter.get` decorator. -/
def ClientRouter.get (self : ClientRouter ε) (path : String) (list_of : Bool)
    (func : ε) : ClientRouter ε × ε :=
  self.client_route path ["GET"] list_of func

/-- `ClientRouter.post` decorator. -/
def ClientRouter.post (self : ClientRouter ε) (path : String) (list_of : Bool)
    (func : ε) : ClientRouter ε × ε :=
  self.client_route path ["POST"] list_of func

/-- `ClientRouter.put` decorator. -/
def ClientRouter.put (self : ClientRouter ε) (path : String) (list_of : Bool)
    (func : ε) : ClientRouter ε × ε :=
  self.client_route path ["PUT"] list_of func

/-- `ClientRouter.delete` decorator. -/
def ClientRouter.delete (self : ClientRouter ε) (path : String) (list_of : Bool)
    (func : ε) : ClientRouter ε × ε :=
  self.client_route path ["DELETE"] list_of func

/-- `ClientRouter.options` decorator. -/
def ClientRouter.options (self : ClientRouter ε) (path : String) (list_of : Bool)
    (func : ε) : ClientRouter ε × ε :=
  self.client_route path ["OPTIONS"] list_of func

/-- `ClientRouter.trace` decorator. -/
def ClientRouter.trace (self : ClientRouter ε) (path : String) (list_of : Bool)
    (func : ε) : ClientRouter ε × ε :=
  self.client_route path ["TRACE"] list_of func

/-- `ClientRouter.patch` decorator. -/
def ClientRouter.patch (self : ClientRouter ε) (path : String) (list_of : Bool)
    (func : ε) : ClientRouter ε × ε :=
  self.client_route path ["PATCH"] list_of func

/-- `ClientRouter.head`: emits a deprecation warning, then raises
`NotImplementedError` (with no message) before constructing any route or
decorator.  The result triple is (router state after the call, warnings
emitted, outcome); the router is returned unchanged because the Python body
never touches `self.routes`. -/
def ClientRouter.head (self : ClientRouter ε) (path : String) (list_of : Bool) :
    ClientRouter ε × List String × Except Raised (ε → ClientRouter ε × ε) :=
  (self,
   ["The `head` decorator is not supported as HEAD request should not have a body."],
   .error (⟨"NotImplementedError", ""⟩, none))

/-- `ClientRouter.connect`: emits a deprecation warning, then raises
`NotImplementedError` before constructing any route or decorator (message typo
is the source's). -/
def ClientRouter.connect (self : ClientRouter ε) (path : String) (list_of : Bool) :
    ClientRouter ε × List String × Except Raised (ε → ClientRouter ε × ε) :=
  (self,
   ["The `connect` decorator is not supported as CONNECT request should doesn't have a body."],
   .error (⟨"NotImplementedError", ""⟩, none))

/-! ## Dispatch (`application.py` — `ApiQlient._route` and friends)

Route-pattern matching is delegated to `starlette.routing.Route.matches`; it
is modelled by a classification oracle `ClientRoute ε → Scope → MatchKind`
passed as a parameter.  The transport layer (`urllib3` / `aiohttp`) is
modelled by a function `String → String → ρ` from (method, url) to a raw
response of abstract type `ρ`. -/

/-- `starlette.routing.Match`: classification of one route against a scope. -/
inductive MatchKind where
  | full
  | part
  | none
deriving DecidableEq, Repr

/-- The ASGI-style scope `_route` builds: `{"type": "http", "path": path,
"method": method.upper()}` (the constant `"type"` key is omitted). -/
structure Scope where
  path : String
  method : String
deriving DecidableEq, Repr

/-- `application.py` — `Request` (synchronous request wrapper): bound handler
type `cls`, HTTP method, url, plus memoization state: the cached response and
the number of transport calls performed so far (the latter is ghost state used
to state the at-most-once-send invariant). -/
structure Request (ε ρ : Type) where
  cls : Option ε
  method : String
  url : String
  response : Option ρ
  sends : Nat
deriving DecidableEq, Repr

/-- `application.py` — `AsyncRequest`: as `Request`, but the transport
coroutine is created eagerly at construction time as the pending thunk
`request`; `sends` counts how many times the pending coroutine was awaited. -/
structure AsyncRequest (ε ρ : Type) where
  cls : Option ε
  method : String
  url : String
  request : Unit → ρ
  response : Option ρ
  sends : Nat

/-- `Request.__enter__`: if no response is cached, perform the blocking
transport call (`self.method(pool, METHOD.upper(), url, **kwargs)`) and cache
it; otherwise return the cached state unchanged. -/
def Request.enter (transport : String → String → ρ) (self : Request ε ρ) :
    Request ε ρ :=
  match self.response with
  | Option.none =>
      { self with
        response := some (transport self.method.toUpper self.url)
        sends := self.sends + 1 }
  | some _ => self

/-- `AsyncRequest.__aenter__`: if no response is cached, await the pending
request coroutine and cache the result; otherwise return the cached state. -/
def AsyncRequest.aenter (self : AsyncRequest ε ρ) : AsyncRequest ε ρ :=
  match self.response with
  | Option.none =>
      { self with
        response := some (self.request ())
        sends := self.sends + 1 }
  | some _ => self

/-- Context state of the client: `fresh` (never entered: the verb methods are
still the class-level stubs), `active b` (`async_scope = b`, verb methods
dispatch), `exited` (`_remove_context` ran: verb methods are the
"Client not in context" lambdas). -/
inductive CtxState where
  | fresh
  | active (async_scope : Bool)
  | exited
deriving DecidableEq, Repr

/-- `application.py` — `ApiQlient`: the client.  Transport/session handles and
the base-url fields are owned by the external libraries and do not affect the
claims; the dispatch-relevant state is the context state and the router
(`self.routes` is starlette's `self.router.routes`). -/
structure ApiQlient (ε : Type) where
  ctx : CtxState
  router : ClientRouter ε
deriving DecidableEq, Repr

/-- `not self.async_scope` selects `Request`; `async_scope` is `None` outside
a context and `None` is falsy, so only `active true` selects `AsyncRequest`. -/
def ApiQlient.asyncScope (c : ApiQlient ε) : Bool :=
  match c.ctx with
  | .active b => b
  | _ => false

/-- The inner `_path()` of `ApiQlient._route`: one pass over the registered
routes accumulating the `Match.FULL` and `Match.PARTIAL` lists in registration
order, then `routes[FULL][0]`, else `routes[PARTIAL][0]`, else `None`. -/
def ApiQlient.pathSelect (oracle : ClientRoute ε → Scope → MatchKind)
    (routes : List (ClientRoute ε)) (scope : Scope) : Option (ClientRoute ε) :=
  let acc := routes.foldl
    (fun (acc : List (ClientRoute ε) × List (ClientRoute ε)) route =>
      match oracle route scope with
      | .full => (acc.1 ++ [route], acc.2)
      | .part => (acc.1, acc.2 ++ [route])
      | .none => acc)
    ([], [])
  match acc.1 with
  | r :: _ => some r
  | [] =>
    match acc.2 with
    | r :: _ => some r
    | [] => Option.none

/-- `ApiQlient._route`: resolve the route for (path, method), then construct a
request wrapper of the variant selected by the context mode, binding the
matched route's endpoint (or `None` on a routing miss).  The result carries
the (unchanged) client to express that dispatch has no side effect on it, and
is an `Except` to express that the body raises nothing. -/
def ApiQlient._route (oracle : ClientRoute ε → Scope → MatchKind)
    (transport : String → String → ρ) (c : ApiQlient ε)
    (path method : String) :
    Except Raised (ApiQlient ε × (Request ε ρ ⊕ AsyncRequest ε ρ)) :=
  let r := ApiQlient.pathSelect oracle c.router.routes
    { path := path, method := method.toUpper }
  let ep : Option ε := match r with
    | some route => some route.endpoint
    | Option.none => Option.none
  if c.asyncScope then
    .ok (c, .inr
      { cls := ep, method := method, url := path
        request := fun _ => transport method path
        response := Option.none, sends := 0 })
  else
    .ok (c, .inl
      { cls := ep, method := method, url := path
        response := Option.none, sends := 0 })

/-- The nine HTTP verb names of `ApiQlient.methods`. -/
def ApiQlient.methods : List String :=
  ["get", "head", "post", "put", "delete", "connect", "options", "trace", "patch"]

/-- Calling a verb-named method on the client.  While a context is active the
installed closures forward to `_route`; after `_remove_context` the installed
lambdas raise `NotImplementedError("Client not in context")`; on a fresh client
the class-level stubs raise `NotImplementedError` with the
"use the router decorator" message. -/
def ApiQlient.callVerb (oracle : ClientRoute ε → Scope → MatchKind)
    (transport : String → String → ρ) (c : ApiQlient ε)
    (verb path : String) :
    Except Raised (ApiQlient ε × (Request ε ρ ⊕ AsyncRequest ε ρ)) :=
  match c.ctx with
  | .active _ => ApiQlient._route oracle transport c path verb
  | .exited => .error (⟨"NotImplementedError", "Client not in context"⟩, Option.none)
  | .fresh =>
      .error
        (⟨"NotImplementedError",
          "When defining paths use `@client.router." ++ verb ++ "(...)` instead"⟩,
         Option.none)

/-- Boolean infix test on lists. -/
def listInfixOf [BEq α] : List α → List α → Bool
  | pat, [] => pat.isEmpty
  | pat, a :: as => pat.isPrefixOf (a :: as) || listInfixOf pat as

/-- Boolean substring test, used to state that an error message identifies a
given phrase. -/
def strContains (s pat : String) : Bool :=
  listInfixOf pat.toList s.toList

/-! ## Response parsing (`application.py` — `BaseResponse._from_dict`,
`Request.Response._object` / `object`)

The parsed JSON mapping has abstract type `δ` and constructed values have
abstract type `ν`.  A bound handler type carries the results of the two
`issubclass` capability probes and its three construction routes, each of
which may raise.  Which optional libraries are importable is a `Libs`
record; `munch.munchify` is an external function parameter. -/

/-- A handler type (`cls`): capability flags (`issubclass(cls,
dataclass_wizard.JSONSerializable)`, `issubclass(cls, pydantic.BaseModel)`)
and the three ways the code can construct a value from the mapping
(`cls.from_dict(data)`, `cls.parse_obj(data)`, `cls(**data)`). -/
structure Handler (δ ν : Type) where
  isWizard : Bool
  isPydantic : Bool
  from_dict : δ → Except Exc ν
  parse_obj : δ → Except Exc ν
  construct : δ → Except Exc ν

/-- Which of the three optional libraries imported successfully. -/
structure Libs where
  dataclass_wizard : Bool
  pydantic : Bool
  munch : Bool
deriving DecidableEq, Repr

/-- The `try:` block of `_from_dict`: `some r` when one of the `return`
statements is reached (`r` the outcome of the chosen construction), `Option.none`
when the block falls through to the trailing
`raise ValueError("munch is not installed")`. -/
def fromDictTry (libs : Libs) (munchify : δ → Except Exc ν) (data : δ)
    (cls : Option (Handler δ ν)) : Option (Except Exc ν) :=
  match cls with
  | some c =>
    if libs.dataclass_wizard || libs.pydantic then
      if libs.dataclass_wizard && c.isWizard then some (c.from_dict data)
      else if libs.pydantic && c.isPydantic then some (c.parse_obj data)
      else some (c.construct data)
    else if libs.munch then some (munchify data)
    else Option.none
  | Option.none =>
    if libs.munch then some (munchify data) else Option.none

/-- `BaseResponse._from_dict`: run the `try:` block; on an exception, return
`None` (modelled `ok Option.none`) when `none_error`, else re-raise the same
exception type with the url-bearing message and the original exception as
cause; when the block falls through, raise
`ValueError("munch is not installed")` — outside the `try:`, hence never
suppressed. -/
def BaseResponse._from_dict (url : String) (libs : Libs)
    (munchify : δ → Except Exc ν) (data : δ) (cls : Option (Handler δ ν))
    (none_error : Bool) : Except Raised (Option ν) :=
  match fromDictTry libs munchify data cls with
  | some (.ok v) => .ok (some v)
  | some (.error exc) =>
      if none_error then .ok Option.none
      else .error
        (⟨exc.kind, "Error trying to retrieve " ++ url ++ ": [" ++ exc.msg ++ "]"⟩,
         some exc)
  | Option.none =>
      .error (⟨"ValueError", "munch is not installed"⟩, Option.none)

/-- A received synchronous response: its source url and the outcome of
`self.json()` (the body parsed as JSON, or the decode exception). -/
structure Response (δ : Type) where
  url : String
  json : Except Exc δ

/-- `Request.Response.object` (via `_object`): evaluate `self.json()` first —
a decode error propagates, `none_error` notwithstanding, because the call
sits outside `_from_dict`'s `try:` — then parse via `_from_dict` with the
bound handler type.  `AsyncRequest.Response.object` awaits
`self.json(content_type=None)` and is otherwise identical, so this single
definition models both variants. -/
def Response.object (resp : Response δ) (libs : Libs)
    (munchify : δ → Except Exc ν) (cls : Option (Handler δ ν))
    (none_error : Bool) : Except Raised (Option ν) :=
  match resp.json with
  | .error e => .error (e, Option.none)
  | .ok data => BaseResponse._from_dict resp.url libs munchify data cls none_error

/-! ## Projections used to state the claims -/

/-- The handler type bound to a dispatched wrapper of either variant. -/
def wrapperCls : Request ε ρ ⊕ AsyncRequest ε ρ → Option ε
  | .inl r => r.cls
  | .inr r => r.cls

/-- Whether a dispatched wrapper is the asynchronous variant. -/
def wrapperIsAsync : Request ε ρ ⊕ AsyncRequest ε ρ → Bool
  | .inl _ => false
  | .inr _ => true

/-- Transport calls performed so far by a dispatched wrapper. -/
def wrapperSends : Request ε ρ ⊕ AsyncRequest ε ρ → Nat
  | .inl r => r.sends
  | .inr r => r.sends

/-- The effect of `_from_dict`'s `except` clause on the outcome `r` of the
construction chosen inside the `try:` block. -/
def excWrap (url : String) (none_error : Bool) : Except Exc ν → Except Raised (Option ν)
  | .ok v => .ok (some v)
  | .error exc =>
      if none_error then .ok Option.none
      else .error
        (⟨exc.kind, "Error trying to retrieve " ++ url ++ ": [" ++ exc.msg ++ "]"⟩,
         some exc)

/-! ## Theorems -/

/-- The first element of a filtered list is the first element satisfying the
predicate. -/
theorem head?_filter_eq_find? (p : α → Bool) (l : List α) :
    (l.filter p).head? = l.find? p := by
  induction l with
  | nil => rfl
  | cons a t ih =>
      by_cases h : p a <;> simp [List.filter_cons, List.find?_cons, h, ih]

/-- The accumulating pass of `_path()` collects exactly the Full- and
Partial-classified routes, in registration order. -/
theorem selectAcc_spec (oracle : ClientRoute ε → Scope → MatchKind) (scope : Scope)
    (l : List (ClientRoute ε)) (a b : List (ClientRoute ε)) :
    l.foldl
      (fun (acc : List (ClientRoute ε) × List (ClientRoute ε)) route =>
        match oracle route scope with
        | .full => (acc.1 ++ [route], acc.2)
        | .part => (acc.1, acc.2 ++ [route])
        | .none => acc)
      (a, b)
    = (a ++ l.filter (fun r => decide (oracle r scope = MatchKind.full)),
       b ++ l.filter (fun r => decide (oracle r scope = MatchKind.part))) := by
  induction l generalizing a b with
  | nil => simp
  | cons x xs ih =>
      cases h : oracle x scope <;>
        simp [List.foldl_cons, h, List.filter_cons, ih, List.append_assoc]

/-- `_path()` returns the first Full match when one exists, else the first
Partial match, else nothing. -/
theorem pathSelect_eq_find? (oracle : ClientRoute ε → Scope → MatchKind)
    (routes : List (ClientRoute ε)) (scope : Scope) :
    ApiQlient.pathSelect oracle routes scope =
      match routes.find? (fun r => decide (oracle r scope = MatchKind.full)) with
      | some r => some r
      | Option.none => routes.find? (fun r => decide (oracle r scope = MatchKind.part)) := by
  unfold ApiQlient.pathSelect
  rw [selectAcc_spec]
  simp only [List.nil_append]
  rw [← head?_filter_eq_find?, ← head?_filter_eq_find?]
  cases hf : routes.filter (fun r => decide (oracle r scope = MatchKind.full)) with
  | cons r t => simp
  | nil =>
      simp only [List.head?_nil]
      cases hp : routes.filter (fun r => decide (oracle r scope = MatchKind.part)) <;> simp

/-- C1: dispatching a method and path against the registered routes binds the
wrapper to the endpoint of the first Full-matching route in registration
order when a Full match exists; otherwise to the first Partial-matching route
in registration order; otherwise the bound handler is `None`. -/
theorem c1_route_selection (oracle : ClientRoute ε → Scope → MatchKind)
    (transport : String → String → ρ) (c : ApiQlient ε) (path method : String) :
    (ApiQlient._route oracle transport c path method).map (fun res => wrapperCls res.2) =
      .ok
        (match c.router.routes.find?
            (fun r => decide (oracle r ⟨path, method.toUpper⟩ = MatchKind.full)) with
        | some r => some r.endpoint
        | Option.none =>
          match c.router.routes.find?
              (fun r => decide (oracle r ⟨path, method.toUpper⟩ = MatchKind.part)) with
          | some r => some r.endpoint
          | Option.none => Option.none) := by
  unfold ApiQlient._route
  rw [pathSelect_eq_find?]
  cases hf : c.router.routes.find?
      (fun r => decide (oracle r ⟨path, method.toUpper⟩ = MatchKind.full)) with
  | some r => cases hb : c.asyncScope <;> simp [Except.map, wrapperCls, hf]
  | none =>
      cases hp : c.router.routes.find?
          (fun r => decide (oracle r ⟨path, method.toUpper⟩ = MatchKind.part)) with
      | some r => cases hb : c.asyncScope <;> simp [Except.map, wrapperCls, hf, hp]
      | none => cases hb : c.asyncScope <;> simp [Except.map, wrapperCls, hf, hp]

/-- C7: on a routing miss (no route classifies as Full or Partial), dispatch
does not raise, performs no side effect on the client, and returns a wrapper
of the variant matching the active mode, with no bound handler and no
transport call performed. -/
theorem c7_routing_miss (oracle : ClientRoute ε → Scope → MatchKind)
    (transport : String → String → ρ) (c : ApiQlient ε) (path method : String)
    (b : Bool) (hctx : c.ctx = CtxState.active b)
    (hmiss : ∀ r ∈ c.router.routes, oracle r ⟨path, method.toUpper⟩ = MatchKind.none) :
    ∃ w, ApiQlient._route oracle transport c path method = .ok (c, w) ∧
      wrapperCls w = Option.none ∧ wrapperIsAsync w = b ∧ wrapperSends w = 0 := by
  have hsel : ApiQlient.pathSelect oracle c.router.routes ⟨path, method.toUpper⟩
      = Option.none := by
    rw [pathSelect_eq_find?]
    have hf : ∀ (k : MatchKind), k ≠ MatchKind.none →
        c.router.routes.find? (fun r => decide (oracle r ⟨path, method.toUpper⟩ = k))
          = Option.none := by
      intro k hk
      rw [List.find?_eq_none]
      intro r hr
      simp only [hmiss r hr, decide_eq_true_eq]
      intro h
      exact absurd h.symm hk
    rw [hf MatchKind.full (by simp), hf MatchKind.part (by simp)]
  have hb : c.asyncScope = b := by
    unfold ApiQlient.asyncScope
    rw [hctx]
  unfold ApiQlient._route
  rw [hsel, hb]
  cases b <;> simp [wrapperCls, wrapperIsAsync, wrapperSends]

/-- Witness for C7: a client in active asynchronous mode with one registered
route that does not match the dispatched path. -/
theorem c7_routing_miss_witness :
    ∃ w, ApiQlient._route (fun (_ : ClientRoute Nat) (_ : Scope) => MatchKind.none)
        (fun _ _ => (0 : Nat))
        ⟨CtxState.active true, ⟨"", [⟨"/a", 1, ["GET"], false⟩]⟩⟩ "/x" "get"
        = .ok (⟨CtxState.active true, ⟨"", [⟨"/a", 1, ["GET"], false⟩]⟩⟩, w) ∧
      wrapperCls w = Option.none ∧ wrapperIsAsync w = true ∧ wrapperSends w = 0 :=
  c7_routing_miss _ _ _ "/x" "get" true rfl (fun r _ => rfl)

/-- Merging a route list by repeated `add_client_route` appends the routes in
order, each stored under the destination router's own prefix followed by the
inclusion prefix followed by the source route's stored path. -/
theorem foldl_add_client_route ( px : String) (l : List (ClientRoute ε)) (acc : ClientRouter ε) :
    l.foldl
      (fun a route =>
        a.add_client_route (px ++ route.path) route.endpoint route.methods route.list_of)
      acc
    = { acc with
        routes := acc.routes ++
          l.map (fun r => { r with path := acc.pfx ++ (px ++ r.path) }) } := by
  induction l generalizing acc with
  | nil => simp
  | cons x xs ih =>
      rw [List.foldl_cons, ih]
      simp [ClientRouter.add_client_route]

/-- Counterexample to C2: merging under the valid prefix `"/v1"` into a
destination router whose own prefix is `"/api"` stores the route at
`"/api/v1/a"`, not at `prefix + original_path = "/v1/a"`. -/
theorem c2_counterexample :
    ClientRouter.include_router ⟨"/api", []⟩ ⟨"", [⟨"/a", (1 : Nat), ["GET"], false⟩]⟩ "/v1"
      = .ok ⟨"/api", [⟨"/api/v1/a", 1, ["GET"], false⟩]⟩ ∧
    pyStartsWith "/v1" "/" = true ∧ pyEndsWith "/v1" "/" = false ∧
    ("/api/v1/a" : String) ≠ "/v1" ++ "/a" :=
  ⟨rfl, rfl, rfl, by decide⟩

/-- C2 as amended: with a valid non-empty prefix, `include_router` merges every
source route in order at path `destination.pfx + prefix + original_path` —
hence at `prefix + original_path` exactly when the destination router's own
prefix is empty — and with a non-empty prefix that does not start with `/` or
that ends with `/`, it raises before any route is merged. -/
theorem c2_amended (dst src : ClientRouter ε) ( px : String) :
    (px ≠ "" → pyStartsWith px "/" = true → pyEndsWith px "/" = false →
      ClientRouter.include_router dst src px =
        .ok { dst with
          routes := dst.routes ++
            src.routes.map (fun r => { r with path := dst.pfx ++ (px ++ r.path) }) }) ∧
    (px ≠ "" → (pyStartsWith px "/" = false ∨ pyEndsWith px "/" = true) →
      ∃ e, ClientRouter.include_router dst src px = .error e ∧
        e.kind = "AssertionError") := by
  constructor
  · intro hne hs he
    unfold ClientRouter.include_router
    rw [if_pos hne, if_neg (by simp [hs]), if_neg (by simp [he]), foldl_add_client_route]
  · intro hne hbad
    unfold ClientRouter.include_router
    rw [if_pos hne]
    rcases hbad with hs | he
    · exact ⟨_, by rw [if_pos (by simp [hs])], rfl⟩
    · by_cases hs : pyStartsWith px "/"
      · exact ⟨_, by rw [if_neg (by simp [hs]), if_pos he], rfl⟩
      · exact ⟨_, by rw [if_pos (by simp [hs])], rfl⟩

/-- Witness for C2 as amended: a valid merge under `"/v1"` into a
prefix-free destination, and a rejected merge under the invalid prefix
`"x"`. -/
theorem c2_amended_witness :
    ClientRouter.include_router ⟨"", []⟩ ⟨"", [⟨"/a", (1 : Nat), ["GET"], false⟩]⟩ "/v1"
      = .ok ⟨"", [⟨"/v1/a", 1, ["GET"], false⟩]⟩ ∧
    (∃ e, ClientRouter.include_router ⟨"", []⟩ ⟨"", [⟨"/a", (1 : Nat), ["GET"], false⟩]⟩ "x"
      = .error e ∧ e.kind = "AssertionError") :=
  ⟨(c2_amended ⟨"", []⟩ ⟨"", [⟨"/a", (1 : Nat), ["GET"], false⟩]⟩ "/v1").1
      (by decide) rfl rfl,
   (c2_amended ⟨"", []⟩ ⟨"", [⟨"/a", (1 : Nat), ["GET"], false⟩]⟩ "x").2
      (by decide) (Or.inl rfl)⟩

/-- C8: the `head` and `connect` decorators emit a deprecation warning, raise
`NotImplementedError`, and leave the router's route list unchanged, for every
path argument. -/
theorem c8_head_connect_raise (self : ClientRouter ε) (path : String) (lo : Bool) :
    (self.head path lo).1.routes = self.routes ∧
    (self.head path lo).2.1 =
      ["The `head` decorator is not supported as HEAD request should not have a body."] ∧
    (self.head path lo).2.2 = .error (⟨"NotImplementedError", ""⟩, Option.none) ∧
    (self.connect path lo).1.routes = self.routes ∧
    (self.connect path lo).2.1 =
      ["The `connect` decorator is not supported as CONNECT request should doesn't have a body."] ∧
    (self.connect path lo).2.2 = .error (⟨"NotImplementedError", ""⟩, Option.none) :=
  ⟨rfl, rfl, rfl, rfl, rfl, rfl⟩

/-- C10: each supported verb decorator returns the decorated endpoint object
itself, and its only effect is appending one route (stored under the router's
own prefix) to the route list. -/
theorem c10_decorator_identity (self : ClientRouter ε) (path : String) (lo : Bool) (func : ε) :
    (self.get path lo func).2 = func ∧
    (self.get path lo func).1 =
      { self with routes := self.routes ++ [⟨self.pfx ++ path, func, ["GET"], lo⟩] } ∧
    (self.post path lo func).2 = func ∧
    (self.post path lo func).1 =
      { self with routes := self.routes ++ [⟨self.pfx ++ path, func, ["POST"], lo⟩] } ∧
    (self.put path lo func).2 = func ∧
    (self.put path lo func).1 =
      { self with routes := self.routes ++ [⟨self.pfx ++ path, func, ["PUT"], lo⟩] } ∧
    (self.delete path lo func).2 = func ∧
    (self.delete path lo func).1 =
      { self with routes := self.routes ++ [⟨self.pfx ++ path, func, ["DELETE"], lo⟩] } ∧
    (self.options path lo func).2 = func ∧
    (self.options path lo func).1 =
      { self with routes := self.routes ++ [⟨self.pfx ++ path, func, ["OPTIONS"], lo⟩] } ∧
    (self.trace path lo func).2 = func ∧
    (self.trace path lo func).1 =
      { self with routes := self.routes ++ [⟨self.pfx ++ path, func, ["TRACE"], lo⟩] } ∧
    (self.patch path lo func).2 = func ∧
    (self.patch path lo func).1 =
      { self with routes := self.routes ++ [⟨self.pfx ++ path, func, ["PATCH"], lo⟩] } :=
  ⟨rfl, rfl, rfl, rfl, rfl, rfl, rfl, rfl, rfl, rfl, rfl, rfl, rfl, rfl⟩

/-- Re-entering the synchronous response scope after the cache is populated is
the identity (the null-check guard). -/
theorem Request.enter_enter (t : String → String → ρ) (r : Request ε ρ) :
    Request.enter t (Request.enter t r) = Request.enter t r := by
  unfold Request.enter
  cases hr : r.response <;> simp [hr]

/-- Iterating the synchronous scope entry any positive number of times equals
entering once. -/
theorem Request.enter_iterate (t : String → String → ρ) (r : Request ε ρ) (n : Nat) :
    (Request.enter t)^[n + 1] r = Request.enter t r := by
  induction n with
  | zero => simp
  | succ m ih => rw [Function.iterate_succ_apply', ih, Request.enter_enter]

/-- Re-awaiting the asynchronous response scope after the cache is populated is
the identity (the null-check guard). -/
theorem AsyncRequest.aenter_aenter (a : AsyncRequest ε ρ) :
    AsyncRequest.aenter (AsyncRequest.aenter a) = AsyncRequest.aenter a := by
  unfold AsyncRequest.aenter
  cases ha : a.response <;> simp [ha]

/-- Iterating the asynchronous scope entry any positive number of times equals
entering once. -/
theorem AsyncRequest.aenter_iterate (a : AsyncRequest ε ρ) (n : Nat) :
    AsyncRequest.aenter^[n + 1] a = AsyncRequest.aenter a := by
  induction n with
  | zero => simp
  | succ m ih => rw [Function.iterate_succ_apply', ih, AsyncRequest.aenter_aenter]

/-- C5: for a freshly constructed wrapper of either variant, entering the
response scope any positive number of times performs exactly one transport
call, and every later entry returns the response cached by the first. -/
theorem c5_single_send (t : String → String → ρ) (r : Request ε ρ)
    (a : AsyncRequest ε ρ) (n : Nat)
    (hr : r.response = Option.none) (hrs : r.sends = 0)
    (ha : a.response = Option.none) (has : a.sends = 0) (hn : 1 ≤ n) :
    ((Request.enter t)^[n] r).sends = 1 ∧
    ((Request.enter t)^[n] r).response = (Request.enter t r).response ∧
    (AsyncRequest.aenter^[n] a).sends = 1 ∧
    (AsyncRequest.aenter^[n] a).response = (AsyncRequest.aenter a).response := by
  obtain ⟨m, rfl⟩ : ∃ m, n = m + 1 :=
    ⟨n - 1, (Nat.succ_pred_eq_of_pos hn).symm⟩
  rw [Request.enter_iterate, AsyncRequest.aenter_iterate]
  refine ⟨?_, rfl, ?_, rfl⟩
  · unfold Request.enter
    rw [hr]
    simp [hrs]
  · unfold AsyncRequest.aenter
    rw [ha]
    simp [has]

/-- Witness for C5: entering twice on concrete fresh wrappers of both variants
leaves the send counter at one. -/
theorem c5_single_send_witness :
    ((Request.enter (fun _ _ => (0 : Nat)))^[2]
      { cls := (Option.none : Option Nat), method := "get", url := "/x",
        response := Option.none, sends := 0 }).sends = 1 ∧
    (AsyncRequest.aenter^[2]
      { cls := (Option.none : Option Nat), method := "get", url := "/x",
        request := fun _ => (0 : Nat), response := Option.none, sends := 0 }).sends = 1 :=
  ⟨(c5_single_send (fun _ _ => (0 : Nat))
      { cls := (Option.none : Option Nat), method := "get", url := "/x",
        response := Option.none, sends := 0 }
      { cls := (Option.none : Option Nat), method := "get", url := "/x",
        request := fun _ => (0 : Nat), response := Option.none, sends := 0 }
      2 rfl rfl rfl rfl (by decide)).1,
   (c5_single_send (fun _ _ => (0 : Nat))
      { cls := (Option.none : Option Nat), method := "get", url := "/x",
        response := Option.none, sends := 0 }
      { cls := (Option.none : Option Nat), method := "get", url := "/x",
        request := fun _ => (0 : Nat), response := Option.none, sends := 0 }
      2 rfl rfl rfl rfl (by decide)).2.2.1⟩

/-- Counterexample to C6: on a fresh client — before any context has ever been
entered — a verb method raises, but its message is the "use the router
decorator" hint, which does not identify "not in context". -/
theorem c6_counterexample :
    ApiQlient.callVerb (fun (_ : ClientRoute Nat) (_ : Scope) => MatchKind.none)
      (fun _ _ => (0 : Nat)) ⟨CtxState.fresh, ⟨"", []⟩⟩ "get" "/x"
      = .error
          (⟨"NotImplementedError",
            "When defining paths use `@client.router.get(...)` instead"⟩,
           Option.none) ∧
    strContains "When defining paths use `@client.router.get(...)` instead"
      "not in context" = false :=
  ⟨rfl, by decide⟩

/-- C6 as amended: after a context has been exited, every verb-named method
raises `NotImplementedError` whose message identifies "not in context"; on a
fresh client, before any context entry, every verb-named method raises
`NotImplementedError` whose message instead directs to the router decorators
and does not identify "not in context". -/
theorem c6_amended (oracle : ClientRoute ε → Scope → MatchKind)
    (transport : String → String → ρ) (c : ApiQlient ε) (verb path : String)
    (hm : verb ∈ ApiQlient.methods) :
    (c.ctx = CtxState.exited →
      ApiQlient.callVerb oracle transport c verb path =
        .error (⟨"NotImplementedError", "Client not in context"⟩, Option.none) ∧
      strContains "Client not in context" "not in context" = true) ∧
    (c.ctx = CtxState.fresh →
      ApiQlient.callVerb oracle transport c verb path =
        .error
          (⟨"NotImplementedError",
            "When defining paths use `@client.router." ++ verb ++ "(...)` instead"⟩,
           Option.none) ∧
      strContains ("When defining paths use `@client.router." ++ verb ++ "(...)` instead")
        "not in context" = false) := by
  constructor
  · intro h
    refine ⟨?_, by decide⟩
    unfold ApiQlient.callVerb
    rw [h]
  · intro h
    refine ⟨?_, ?_⟩
    · unfold ApiQlient.callVerb
      rw [h]
    · fin_cases hm <;> decide

/-- Witness for C6 as amended: a concrete client in the exited state raises the
"Client not in context" error on `get`. -/
theorem c6_amended_witness :
    ApiQlient.callVerb (fun (_ : ClientRoute Nat) (_ : Scope) => MatchKind.none)
      (fun _ _ => (0 : Nat)) ⟨CtxState.exited, ⟨"", []⟩⟩ "get" "/x"
      = .error (⟨"NotImplementedError", "Client not in context"⟩, Option.none) ∧
    strContains "Client not in context" "not in context" = true :=
  (c6_amended (fun (_ : ClientRoute Nat) (_ : Scope) => MatchKind.none)
    (fun _ _ => (0 : Nat)) ⟨CtxState.exited, ⟨"", []⟩⟩ "get" "/x"
    (by decide)).1 rfl

/-- When the `try:` block of `_from_dict` reaches a `return`, the overall
outcome is that construction outcome passed through the `except` clause. -/
theorem _from_dict_eq_excWrap (url : String) (libs : Libs)
    (munchify : δ → Except Exc ν) (data : δ) (cls : Option (Handler δ ν))
    (none_error : Bool) (r : Except Exc ν)
    (h : fromDictTry libs munchify data cls = some r) :
    BaseResponse._from_dict url libs munchify data cls none_error =
      excWrap url none_error r := by
  unfold BaseResponse._from_dict
  rw [h]
  cases r <;> rfl

/-- Counterexample to C3: a handler type is bound (and supports neither the
build-from-mapping nor the parse-as-model capability, so the claim requires
the constructor call), yet with neither optional deserialization library
installed the code ignores the handler and munchifies instead. -/
theorem c3_counterexample :
    BaseResponse._from_dict "u" ⟨false, false, true⟩ (fun (_ : Nat) => .ok (99 : Nat)) 0
      (some ⟨false, false, fun d => .ok (d + 1), fun d => .ok (d + 2), fun d => .ok (d + 3)⟩)
      false
      = .ok (some 99) ∧
    Handler.construct
      ⟨false, false, fun d => .ok (d + 1), fun d => .ok (d + 2), fun (d : Nat) => .ok (d + 3)⟩
      0 = .ok (3 : Nat) ∧
    (Except.ok (some 99) : Except Raised (Option Nat)) ≠ .ok (some 3) :=
  ⟨rfl, rfl, by simp⟩

/-- C3 as amended: with a handler type bound and at least one of the two typed
deserialization libraries importable, construction follows the priority order
(wizard `from_dict`, else pydantic `parse_obj`, else the constructor); with no
handler bound — or a handler bound but neither typed library importable — the
mapping is munchified when `munch` is importable, and otherwise
`ValueError("munch is not installed")` is raised. -/
theorem c3_amended (url : String) (libs : Libs) (munchify : δ → Except Exc ν)
    (data : δ) (c : Handler δ ν) (cls : Option (Handler δ ν)) (none_error : Bool) :
    (libs.dataclass_wizard = true → c.isWizard = true →
      BaseResponse._from_dict url libs munchify data (some c) none_error =
        excWrap url none_error (c.from_dict data)) ∧
    ((libs.dataclass_wizard && c.isWizard) = false → libs.pydantic = true →
      c.isPydantic = true →
      BaseResponse._from_dict url libs munchify data (some c) none_error =
        excWrap url none_error (c.parse_obj data)) ∧
    ((libs.dataclass_wizard || libs.pydantic) = true →
      (libs.dataclass_wizard && c.isWizard) = false →
      (libs.pydantic && c.isPydantic) = false →
      BaseResponse._from_dict url libs munchify data (some c) none_error =
        excWrap url none_error (c.construct data)) ∧
    (libs.dataclass_wizard = false → libs.pydantic = false → libs.munch = true →
      BaseResponse._from_dict url libs munchify data (some c) none_error =
        excWrap url none_error (munchify data)) ∧
    (libs.munch = true →
      BaseResponse._from_dict url libs munchify data Option.none none_error =
        excWrap url none_error (munchify data)) ∧
    (libs.munch = false →
      (cls = Option.none ∨ (libs.dataclass_wizard = false ∧ libs.pydantic = false)) →
      BaseResponse._from_dict url libs munchify data cls none_error =
        .error (⟨"ValueError", "munch is not installed"⟩, Option.none)) := by
  refine ⟨?_, ?_, ?_, ?_, ?_, ?_⟩
  · intro hw hc
    exact _from_dict_eq_excWrap _ _ _ _ _ _ _ (by simp [fromDictTry, hw, hc])
  · intro hwc hp hc
    exact _from_dict_eq_excWrap _ _ _ _ _ _ _ (by simp [fromDictTry, hwc, hp, hc])
  · intro hor hwc hpc
    exact _from_dict_eq_excWrap _ _ _ _ _ _ _ (by simp [fromDictTry, hor, hwc, hpc])
  · intro hw hp hm
    exact _from_dict_eq_excWrap _ _ _ _ _ _ _ (by simp [fromDictTry, hw, hp, hm])
  · intro hm
    exact _from_dict_eq_excWrap _ _ _ _ _ _ _ (by simp [fromDictTry, hm])
  · intro hm hcase
    have hnone : fromDictTry libs munchify data cls = Option.none := by
      rcases hcase with hc | ⟨hw, hp⟩
      · simp [fromDictTry, hc, hm]
      · cases cls <;> simp [fromDictTry, hw, hp, hm]
    unfold BaseResponse._from_dict
    rw [hnone]

/-- Witness for C3 as amended: with `dataclass_wizard` importable and a
wizard-serializable handler, `_from_dict` uses `from_dict`; with `munch`
missing and neither typed library importable, it raises the `ValueError`. -/
theorem c3_amended_witness :
    BaseResponse._from_dict "u" ⟨true, false, true⟩ (fun (_ : Nat) => .ok (99 : Nat)) 0
      (some ⟨true, false, fun d => .ok (d + 1), fun d => .ok (d + 2), fun d => .ok (d + 3)⟩)
      false
      = .ok (some 1) ∧
    BaseResponse._from_dict "u" ⟨false, false, false⟩ (fun (_ : Nat) => .ok (99 : Nat)) 0
      (Option.none : Option (Handler Nat Nat)) false
      = .error (⟨"ValueError", "munch is not installed"⟩, Option.none) :=
  ⟨(c3_amended "u" ⟨true, false, true⟩ (fun (_ : Nat) => .ok (99 : Nat)) 0
      ⟨true, false, fun d => .ok (d + 1), fun d => .ok (d + 2), fun d => .ok (d + 3)⟩
      Option.none false).1 rfl rfl,
   (c3_amended "u" ⟨false, false, false⟩ (fun (_ : Nat) => .ok (99 : Nat)) 0
      ⟨true, false, fun d => .ok (d + 1), fun d => .ok (d + 2), fun d => .ok (d + 3)⟩
      Option.none false).2.2.2.2.2 rfl (Or.inl rfl)⟩

/-- C9: an exception raised inside `object()`'s construction step with
`none_error` false is re-raised with the same exception type, a message naming
the response's source url and the original message, and the original exception
as the cause. -/
theorem c9_reraise (resp : Response δ) (libs : Libs) (munchify : δ → Except Exc ν)
    (cls : Option (Handler δ ν)) (data : δ) (exc : Exc)
    (hjson : resp.json = .ok data)
    (htry : fromDictTry libs munchify data cls = some (.error exc)) :
    resp.object libs munchify cls false =
      .error
        (⟨exc.kind, "Error trying to retrieve " ++ resp.url ++ ": [" ++ exc.msg ++ "]"⟩,
         some exc) := by
  simp only [Response.object, hjson]
  rw [_from_dict_eq_excWrap resp.url libs munchify data cls false _ htry]
  rfl

/-- Witness for C9: a constructor that raises `TypeError("boom")` surfaces as
`TypeError` with the url-bearing message and the original exception chained. -/
theorem c9_reraise_witness :
    Response.object ⟨"http://h/x", .ok (0 : Nat)⟩ ⟨true, true, true⟩
      (fun (_ : Nat) => .ok (99 : Nat))
      (some ⟨false, false, fun d => .ok (d + 1), fun d => .ok (d + 2),
        fun _ => .error ⟨"TypeError", "boom"⟩⟩)
      false
      = .error
          (⟨"TypeError", "Error trying to retrieve http://h/x: [boom]"⟩,
           some ⟨"TypeError", "boom"⟩) :=
  c9_reraise ⟨"http://h/x", .ok (0 : Nat)⟩ ⟨true, true, true⟩
    (fun (_ : Nat) => .ok (99 : Nat))
    (some ⟨false, false, fun d => .ok (d + 1), fun d => .ok (d + 2),
      fun _ => .error ⟨"TypeError", "boom"⟩⟩)
    0 ⟨"TypeError", "boom"⟩ rfl rfl

/-- Counterexample to C4: when the response body fails to parse as JSON,
`object(none_error=True)` raises the decode error rather than returning a null
value, because `self.json()` is evaluated outside `_from_dict`'s `try:`. -/
theorem c4_counterexample :
    Response.object ⟨"u", .error ⟨"JSONDecodeError", "bad"⟩⟩ ⟨true, true, true⟩
      (fun (d : Nat) => .ok (d : Nat)) (Option.none : Option (Handler Nat Nat)) true
      = .error (⟨"JSONDecodeError", "bad"⟩, Option.none) :=
  rfl

/-- C4 as amended: `object(none_error=True)` returns a null value in place of
any exception raised during handler construction or the munch fallback, but a
JSON body-decode error still propagates, and when no construction branch
applies and `munch` is not importable the `ValueError` is still raised. -/
theorem c4_amended (resp : Response δ) (libs : Libs) (munchify : δ → Except Exc ν)
    (cls : Option (Handler δ ν)) (data : δ) (r : Except Exc ν) (e : Exc) :
    (resp.json = .ok data → fromDictTry libs munchify data cls = some r →
      resp.object libs munchify cls true =
        .ok (match r with | .ok v => some v | .error _ => Option.none)) ∧
    (resp.json = .ok data → fromDictTry libs munchify data cls = Option.none →
      resp.object libs munchify cls true =
        .error (⟨"ValueError", "munch is not installed"⟩, Option.none)) ∧
    (resp.json = .error e →
      resp.object libs munchify cls true = .error (e, Option.none)) := by
  refine ⟨?_, ?_, ?_⟩
  · intro hjson htry
    simp only [Response.object, hjson]
    rw [_from_dict_eq_excWrap resp.url libs munchify data cls true r htry]
    cases r <;> rfl
  · intro hjson htry
    simp only [Response.object, hjson, BaseResponse._from_dict]
    rw [htry]
  · intro hjson
    simp only [Response.object, hjson]

/-- Witness for C4 as amended: a failing constructor is suppressed to a null
value under `none_error=True`. -/
theorem c4_amended_witness :
    Response.object ⟨"u", .ok (0 : Nat)⟩ ⟨false, true, false⟩
      (fun (_ : Nat) => .ok (99 : Nat))
      (some ⟨false, false, fun d => .ok (d + 1), fun d => .ok (d + 2),
        fun _ => .error ⟨"TypeError", "boom"⟩⟩)
      true
      = .ok Option.none :=
  (c4_amended ⟨"u", .ok (0 : Nat)⟩ ⟨false, true, false⟩
    (fun (_ : Nat) => .ok (99 : Nat))
    (some ⟨false, false, fun d => .ok (d + 1), fun d => .ok (d + 2),
      fun _ => .error ⟨"TypeError", "boom"⟩⟩)
    0 (.error ⟨"TypeError", "boom"⟩) ⟨"", ""⟩).1 rfl rfl

end ApiQlientModel
